import Mathlib

/-!
Shallow embedding of the survey element base class (`src/questionbase.ts`,
class `QuestionBase`) and proofs of the specification claims about it.

The class is embedded as a state structure `QuestionBase` plus explicit
state-passing operations.  Mutating operations return the new state together
with a trace of observable effects (`Effect`): hook invocations via
`fireCallback` and container notifications.  Callback slots of the source
(`visibilityChangedCallback`, ...) are single-subscriber and may be unset;
the state records with a boolean whether each slot holds a subscriber, and
`fireCallback` emits an effect exactly when it does (the source guards
`if (callback) callback();`).

Collaborators whose code is not part of the repository snapshot
(`base.ts` property store, `conditions.ts` evaluator, the custom-widget
collection and the global css object) are modelled from the specification;
each such definition carries a doc comment saying so.
-/

namespace SurveyJS

/-- Modelled from the spec: the container collaborator (owning survey,
`base.ts` / §6).  It exposes `isDesignMode`; its `questionVisibilityChanged`
and `updateQuestionCssClasses` entry points are modelled as effects and as a
result transformation respectively. -/
structure Survey where
  isDesignMode : Bool
deriving DecidableEq, Repr

/-- Modelled from the spec: an external custom-widget binding
(`questionCustomWidgets.ts`, §6), opaque to this core. -/
structure QuestionCustomWidget where
  widgetName : String
deriving DecidableEq, Repr

/-- Source `ConditionRunner` from `conditions.ts`: an evaluator instance bound to an
expression string.  Modelled from the spec (§6): its internal parse state is
opaque; only the bound `expression` text is observable here, and its `run`
method is passed in as an opaque function. -/
structure ConditionRunner where
  expression : String
deriving DecidableEq, Repr

/-- Placeholder for `SurveyError` of `base.ts` (opaque to this core). -/
structure SurveyError where
  text : String
deriving DecidableEq, Repr

/-- Observable effects of an operation, in the order they happen. -/
inductive Effect where
  | visibilityChanged
  | rowVisibilityChanged
  | questionVisibilityChanged (visible : Bool)
  | renderWidthChanged
  | startWithNewLineChanged
  | visibleIndexChanged
  | resolverInvoked
deriving DecidableEq, Repr

/-- State of one `QuestionBase` element.  The `prop*` fields model the
property bag of `base.ts` (modelled from the spec §4.1: `get(name, default)`
returns the stored value or the default when never set; `set` stores
unconditionally), restricted to the keys this class uses.  The
`has*Callback` fields record whether the corresponding single-slot callback
is subscribed. -/
structure QuestionBase where
  name : String
  propVisible : Option Bool
  propVisibleIf : Option String
  propId : Option String
  propWidth : Option String
  propRenderWidth : Option String
  propIndent : Option Int
  propRightIndent : Option Int
  propStartWithNewLine : Option Bool
  propVisibleIndex : Option Int
  conditionRunner : Option ConditionRunner
  isCustomWidgetRequested : Bool
  customWidgetValue : Option QuestionCustomWidget
  survey : Option Survey
  hasVisibilityChangedCallback : Bool
  hasRowVisibilityChangedCallback : Bool
  hasRenderWidthChangedCallback : Bool
  hasStartWithNewLineChangedCallback : Bool
  hasVisibleIndexChangedCallback : Bool
deriving DecidableEq, Repr

/-- Source `private static getQuestionId()`: returns `"sq_" + counter` and the
incremented static counter. -/
def getQuestionId (questionCounter : Nat) : String × Nat :=
  ("sq_" ++ Nat.repr questionCounter, questionCounter + 1)

/-- Source `constructor(public name: string)`: fresh state; `this.id =
QuestionBase.getQuestionId()` stores the generated id in the property bag.
Returns the element and the updated static counter. -/
def construct (name : String) (questionCounter : Nat) : QuestionBase × Nat :=
  let idc := getQuestionId questionCounter
  ({ name := name
     propVisible := none
     propVisibleIf := none
     propId := some idc.1
     propWidth := none
     propRenderWidth := none
     propIndent := none
     propRightIndent := none
     propStartWithNewLine := none
     propVisibleIndex := none
     conditionRunner := none
     isCustomWidgetRequested := false
     customWidgetValue := none
     survey := none
     hasVisibilityChangedCallback := false
     hasRowVisibilityChangedCallback := false
     hasRenderWidthChangedCallback := false
     hasStartWithNewLineChangedCallback := false
     hasVisibleIndexChangedCallback := false }, idc.2)

/-- Source `protected fireCallback(callback)`: calls the callback when subscribed;
modelled as emitting the slot's effect exactly when the slot is subscribed. -/
def fireCallback (attached : Bool) (e : Effect) : List Effect :=
  if attached then [e] else []

namespace QuestionBase

/-- Source `getType()`. -/
def getType (_ : QuestionBase) : String := "questionbase"

/-- Source `get isPanel()`. -/
def isPanel (_ : QuestionBase) : Bool := false

/-- Source `get visible()`: `getPropertyValue("visible", true)`. -/
def visible (q : QuestionBase) : Bool := q.propVisible.getD true

/-- Source `get visibleIf()`: `getPropertyValue("visibleIf", "")`. -/
def visibleIf (q : QuestionBase) : String := q.propVisibleIf.getD ""

/-- Source `get id()`: `getPropertyValue("id")` (no default). -/
def id (q : QuestionBase) : Option String := q.propId

/-- Source `get width()`: `getPropertyValue("width", "")`. -/
def width (q : QuestionBase) : String := q.propWidth.getD ""

/-- Source `get renderWidth()`: `getPropertyValue("renderWidth", "")`. -/
def renderWidth (q : QuestionBase) : String := q.propRenderWidth.getD ""

/-- Source `get indent()`: `getPropertyValue("indent", 0)`. -/
def indent (q : QuestionBase) : Int := q.propIndent.getD 0

/-- Source `get rightIndent()`: `getPropertyValue("rightIndent", 0)`. -/
def rightIndent (q : QuestionBase) : Int := q.propRightIndent.getD 0

/-- Source `get startWithNewLine()`: `getPropertyValue("startWithNewLine", true)`. -/
def startWithNewLine (q : QuestionBase) : Bool := q.propStartWithNewLine.getD true

/-- Source `get visibleIndex()`: `getPropertyValue("visibleIndex", -1)`. -/
def visibleIndex (q : QuestionBase) : Int := q.propVisibleIndex.getD (-1)

/-- Source `get isDesignMode()`: `this.survey && this.survey.isDesignMode`
(falsy when no survey is attached). -/
def isDesignMode (q : QuestionBase) : Bool :=
  match q.survey with
  | some sv => sv.isDesignMode
  | none => false

/-- Source `get isVisible()`: `this.visible || this.isDesignMode`. -/
def isVisible (q : QuestionBase) : Bool := q.visible || q.isDesignMode

/-- Source `get isReadOnly()`: the source returns `true` unconditionally. -/
def isReadOnly (_ : QuestionBase) : Bool := true

/-- Source `hasErrors(fireCallback)`: returns `false` (argument unused). -/
def hasErrors (_ : QuestionBase) (_fireCallbackArg : Bool) : Bool := false

/-- Source `get currentErrorCount()`: returns `0`. -/
def currentErrorCount (_ : QuestionBase) : Int := 0

/-- Source `get hasTitle()`: returns `false`. -/
def hasTitle (_ : QuestionBase) : Bool := false

/-- Source `get hasDescription()`: returns `false`. -/
def hasDescription (_ : QuestionBase) : Bool := false

/-- Source `get hasInput()`: returns `false`. -/
def hasInput (_ : QuestionBase) : Bool := false

/-- Source `get hasComment()`: returns `false`. -/
def hasComment (_ : QuestionBase) : Bool := false

/-- Source `getAllErrors()`: returns the empty list. -/
def getAllErrors (_ : QuestionBase) : List SurveyError := []

/-- Source `set visible(val)`: no-op when equal to the current value; otherwise
stores the value, fires the visibility callback then the row-visibility
callback, then (only when a survey is attached) notifies the container via
`questionVisibilityChanged(this, this.visible)` — note the source re-reads
`this.visible` after the store. -/
def setVisible (q : QuestionBase) (val : Bool) : QuestionBase × List Effect :=
  if val = q.visible then (q, [])
  else
    let q1 := { q with propVisible := some val }
    (q1,
      fireCallback q.hasVisibilityChangedCallback .visibilityChanged
        ++ fireCallback q.hasRowVisibilityChangedCallback .rowVisibilityChanged
        ++ match q.survey with
           | some _ => [.questionVisibilityChanged q1.visible]
           | none => [])

/-- Source `set visibleIf(val)`: stores unconditionally, no hook. -/
def setVisibleIf (q : QuestionBase) (val : String) : QuestionBase × List Effect :=
  ({ q with propVisibleIf := some val }, [])

/-- Source `set width(val)`: stores unconditionally, no hook. -/
def setWidth (q : QuestionBase) (val : String) : QuestionBase × List Effect :=
  ({ q with propWidth := some val }, [])

/-- Source `set renderWidth(val)`: no-op when equal; otherwise stores and fires the
render-width callback. -/
def setRenderWidth (q : QuestionBase) (val : String) : QuestionBase × List Effect :=
  if val = q.renderWidth then (q, [])
  else
    ({ q with propRenderWidth := some val },
      fireCallback q.hasRenderWidthChangedCallback .renderWidthChanged)

/-- Source `set indent(val)`: no-op when equal; otherwise stores and fires the
shared render-width callback. -/
def setIndent (q : QuestionBase) (val : Int) : QuestionBase × List Effect :=
  if val = q.indent then (q, [])
  else
    ({ q with propIndent := some val },
      fireCallback q.hasRenderWidthChangedCallback .renderWidthChanged)

/-- Source `set rightIndent(val)`: no-op when equal; otherwise stores and fires the
shared render-width callback. -/
def setRightIndent (q : QuestionBase) (val : Int) : QuestionBase × List Effect :=
  if val = q.rightIndent then (q, [])
  else
    ({ q with propRightIndent := some val },
      fireCallback q.hasRenderWidthChangedCallback .renderWidthChanged)

/-- Source `set startWithNewLine(val)`: no-op when equal; otherwise stores and
fires the start-with-new-line callback. -/
def setStartWithNewLine (q : QuestionBase) (val : Bool) : QuestionBase × List Effect :=
  if q.startWithNewLine = val then (q, [])
  else
    ({ q with propStartWithNewLine := some val },
      fireCallback q.hasStartWithNewLineChangedCallback .startWithNewLineChanged)

/-- Source `setVisibleIndex(val)`: returns `1` always; no-op when equal; otherwise
stores and fires the visible-index callback. -/
def setVisibleIndex (q : QuestionBase) (val : Int) :
    QuestionBase × List Effect × Int :=
  if q.visibleIndex = val then (q, [], 1)
  else
    ({ q with propVisibleIndex := some val },
      fireCallback q.hasVisibleIndexChangedCallback .visibleIndexChanged, 1)

/-- Source `runCondition(values)`: returns immediately when `visibleIf` is empty
(falsy); otherwise lazily constructs the `ConditionRunner` bound to
`visibleIf` when absent, resynchronizes its expression text, evaluates via
the opaque evaluator `run` (modelled from the spec §6: expression string and
value mapping in, boolean out), and assigns the result through the normal
`visible` setter. -/
def runCondition {α : Type} (run : String → α → Bool) (values : α)
    (q : QuestionBase) : QuestionBase × List Effect :=
  if q.visibleIf = "" then (q, [])
  else
    let cr0 := match q.conditionRunner with
      | none => ConditionRunner.mk q.visibleIf
      | some c => c
    let cr := { cr0 with expression := q.visibleIf }
    let q1 := { q with conditionRunner := some cr }
    q1.setVisible (run cr.expression values)

/-- Source `updateCustomWidget()`: unconditionally invokes the external resolver
(`CustomWidgetCollection.Instance.getCustomWidget(this)`, modelled from the
spec §6 as the opaque result `resolve`) and replaces the cache. -/
def updateCustomWidget (resolve : Option QuestionCustomWidget)
    (q : QuestionBase) : QuestionBase × List Effect :=
  ({ q with customWidgetValue := resolve }, [.resolverInvoked])

/-- Source `get customWidget()`: when not yet requested and no cached value, marks
requested and runs `updateCustomWidget()`; returns the cached value. -/
def customWidget (resolve : Option QuestionCustomWidget) (q : QuestionBase) :
    Option QuestionCustomWidget × QuestionBase × List Effect :=
  if !q.isCustomWidgetRequested && q.customWidgetValue.isNone then
    let q1 := { q with isCustomWidgetRequested := true }
    let r := q1.updateCustomWidget resolve
    (r.1.customWidgetValue, r.1, r.2)
  else
    (q.customWidgetValue, q, [])

/-- Runs `n` consecutive reads of the `customWidget` property, threading the
state and concatenating the effect traces. -/
def readCustomWidgetN (resolve : Option QuestionCustomWidget) :
    Nat → QuestionBase → QuestionBase × List Effect
  | 0, q => (q, [])
  | n + 1, q =>
    let r := q.customWidget resolve
    let rest := readCustomWidgetN resolve n r.2.1
    (rest.1, r.2.2 ++ rest.2)

end QuestionBase

/-- The value mapping (`HashTable<any>` restricted to the numeric values the
claims use). -/
abbrev ValueMap := List (String × Int)

/-- Modelled from the spec (§6): a concrete instance of the expression
evaluator collaborator, used to instantiate witnesses.  It evaluates exactly
the expression `"{x} = 1"`: true when the mapping binds `x` to `1`. -/
def specEvalRun (expr : String) (values : ValueMap) : Bool :=
  expr == "{x} = 1"
    && ((values.find? (fun kv => kv.1 == "x")).map (fun kv => kv.2) == some 1)

/-- A style group of the global style sheet: either a single class-name
string or a mapping of style-area names to class names (the source handles
both shapes dynamically). -/
inductive CssEntry where
  | str (value : String)
  | map (entries : List (String × String))
deriving DecidableEq, Repr

/-- Modelled from the spec (§6): the process-wide style sheet returned by
`surveyCss.getCss()` (`defaultCss/cssstandard.ts`), split into the generic
question group, the generic error group, and the per-type override table. -/
structure SurveyCssSheet where
  question : Option CssEntry
  error : Option CssEntry
  perType : List (String × CssEntry)
deriving DecidableEq, Repr

/-- The object returned by `cssClasses`: top-level string entries (such as
`root`) plus the `error` sub-object. -/
structure CssClassesResult where
  top : List (String × String)
  error : List (String × String)
deriving DecidableEq, Repr

/-- Lookup in a string-keyed association list (JS object property read). -/
def alGet (l : List (String × String)) (k : String) : Option String :=
  (l.find? (fun kv => kv.1 == k)).map (fun kv => kv.2)

/-- Overwriting store in a string-keyed association list (JS object property
write: replaces an existing key, otherwise appends). -/
def alSet : List (String × String) → String → String → List (String × String)
  | [], k, v => [(k, v)]
  | (k1, v1) :: rest, k, v =>
    if k1 = k then (k, v) :: rest else (k1, v1) :: alSet rest k v

/-- Source `private copyCssClasses(dest, source)`: returns unchanged on a falsy
source (absent or the empty string); a string source is stored under
`root`; a mapping source is copied key by key. -/
def copyCssClasses (dest : List (String × String)) (source : Option CssEntry) :
    List (String × String) :=
  match source with
  | none => dest
  | some (.str s) => if s = "" then dest else alSet dest "root" s
  | some (.map entries) => entries.foldl (fun d kv => alSet d kv.1 kv.2) dest

/-- Source `protected updateCssClasses(res, surveyCss)`: looks up the per-type
entry for this element's type name; absent (undefined/null) leaves `res`
unchanged; a string entry overwrites `res.root`; a mapping entry overwrites
each of its keys in `res`. -/
def updateCssClasses (res : List (String × String)) (sheet : SurveyCssSheet)
    (typeName : String) : List (String × String) :=
  match (sheet.perType.find? (fun kv => kv.1 == typeName)).map (fun kv => kv.2) with
  | none => res
  | some (CssEntry.str s) => alSet res "root" s
  | some (CssEntry.map entries) => entries.foldl (fun d kv => alSet d kv.1 kv.2) res

/-- Source `get cssClasses()`: starts from `{ error: {} }`, copies the generic
question group, copies the generic error group into the error sub-object,
applies the per-type override, then (only when a survey is attached) lets
the container's `updateQuestionCssClasses` hook (here the opaque
`customize`) mutate the result. -/
def QuestionBase.cssClasses (sheet : SurveyCssSheet)
    (customize : CssClassesResult → CssClassesResult) (q : QuestionBase) :
    CssClassesResult :=
  let top0 := copyCssClasses [] sheet.question
  let err := copyCssClasses [] sheet.error
  let top1 := updateCssClasses top0 sheet q.getType
  let classes : CssClassesResult := { top := top1, error := err }
  match q.survey with
  | some _ => customize classes
  | none => classes

/-- Decimal digit character decoding, inverse of `Nat.digitChar` below 10. -/
def decodeDigit (c : Char) : Nat := c.toNat - 48

/-- The numeric value of a most-significant-first decimal digit string. -/
def digitsVal (l : List Char) : Nat :=
  l.foldl (fun a c => 10 * a + decodeDigit c) 0

/-- One public mutating operation of the element, for stating invariants
that hold under every operation. -/
inductive Op where
  | setVisible (val : Bool)
  | setVisibleIf (val : String)
  | setWidth (val : String)
  | setRenderWidth (val : String)
  | setIndent (val : Int)
  | setRightIndent (val : Int)
  | setStartWithNewLine (val : Bool)
  | setVisibleIndex (val : Int)
  | runCondition (run : String → ValueMap → Bool) (values : ValueMap)
  | readCustomWidget (resolve : Option QuestionCustomWidget)
  | updateCustomWidget (resolve : Option QuestionCustomWidget)

/-- Apply one operation to a state, returning the new state and the trace. -/
def Op.apply : Op → QuestionBase → QuestionBase × List Effect
  | .setVisible v, q => q.setVisible v
  | .setVisibleIf v, q => q.setVisibleIf v
  | .setWidth v, q => q.setWidth v
  | .setRenderWidth v, q => q.setRenderWidth v
  | .setIndent v, q => q.setIndent v
  | .setRightIndent v, q => q.setRightIndent v
  | .setStartWithNewLine v, q => q.setStartWithNewLine v
  | .setVisibleIndex v, q => ((q.setVisibleIndex v).1, (q.setVisibleIndex v).2.1)
  | .runCondition run values, q => q.runCondition run values
  | .readCustomWidget resolve, q =>
      ((q.customWidget resolve).2.1, (q.customWidget resolve).2.2)
  | .updateCustomWidget resolve, q => q.updateCustomWidget resolve

/-- A freshly constructed element with every callback slot subscribed, used
to instantiate concrete scenarios. -/
def sampleWired : QuestionBase :=
  { ((construct "q" 100).1) with
    hasVisibilityChangedCallback := true
    hasRowVisibilityChangedCallback := true
    hasRenderWidthChangedCallback := true
    hasStartWithNewLineChangedCallback := true
    hasVisibleIndexChangedCallback := true }

/-- A wired element that is currently invisible and carries the conditional
expression of the visibility scenario. -/
def sampleConditional : QuestionBase :=
  { sampleWired with
    propVisible := some false
    propVisibleIf := some "{x} = 1" }

/-- A wired element whose custom-widget lookup has already been requested. -/
def sampleRequested : QuestionBase :=
  { sampleWired with isCustomWidgetRequested := true }

/-- A concrete style sheet: a generic question group contributing a `root`
class, a generic error group, and a per-type override for this class that
replaces `root`. -/
def sampleSheet : SurveyCssSheet :=
  { question := some (CssEntry.map [("root", "generic-root"), ("title", "generic-title")])
    error := some (CssEntry.map [("root", "error-root")])
    perType := [("questionbase", CssEntry.map [("root", "custom-root")])] }

/-! ## Theorems -/

/-- Helper: the `visible` setter on a distinct value stores the value and
fires the two local hooks (if subscribed) then the container notification. -/
theorem setVisible_eq_of_ne (q : QuestionBase) (val : Bool) (h : ¬ val = q.visible) :
    q.setVisible val =
      ({ q with propVisible := some val },
        fireCallback q.hasVisibilityChangedCallback Effect.visibilityChanged ++
          fireCallback q.hasRowVisibilityChangedCallback Effect.rowVisibilityChanged ++
          if q.survey.isSome then [Effect.questionVisibilityChanged val] else []) := by
  have h' : ¬ val = q.propVisible.getD true := h
  cases hsv : q.survey with
  | none => simp [QuestionBase.setVisible, h, hsv]
  | some sv => simp [QuestionBase.setVisible, h, h', hsv, QuestionBase.visible]

/-- Helper: the `visible` setter on the current value is the identity. -/
theorem setVisible_eq_of_eq (q : QuestionBase) (val : Bool) (h : val = q.visible) :
    q.setVisible val = (q, []) := by
  simp [QuestionBase.setVisible, h]

/-- C2: with an empty `visibleIf`, `runCondition` returns immediately: the
state (in particular `visible` and the cached evaluator slot) is unchanged
and no effect is produced. -/
theorem runCondition_empty_visibleIf_noop {α : Type} (run : String → α → Bool)
    (values : α) (q : QuestionBase) (h : q.visibleIf = "") :
    q.runCondition run values = (q, []) := by
  simp [QuestionBase.runCondition, h]

/-- C2 witness: a freshly constructed element has empty `visibleIf`, and
`runCondition` on it is a no-op. -/
theorem runCondition_empty_visibleIf_noop_witness :
    QuestionBase.runCondition specEvalRun ([] : ValueMap) (construct "q2w" 100).1 =
      ((construct "q2w" 100).1, []) :=
  runCondition_empty_visibleIf_noop specEvalRun [] (construct "q2w" 100).1 rfl

/-- C4: setting any hook-bearing property (`visible`, `renderWidth`,
`indent`, `rightIndent`, `startWithNewLine`, `visibleIndex`) to its current
value leaves the state unchanged and produces no effect at all. -/
theorem set_to_current_value_is_noop (q : QuestionBase) :
    q.setVisible q.visible = (q, []) ∧
    q.setRenderWidth q.renderWidth = (q, []) ∧
    q.setIndent q.indent = (q, []) ∧
    q.setRightIndent q.rightIndent = (q, []) ∧
    q.setStartWithNewLine q.startWithNewLine = (q, []) ∧
    q.setVisibleIndex q.visibleIndex = (q, [], 1) := by
  refine ⟨?_, ?_, ?_, ?_, ?_, ?_⟩ <;>
    simp [QuestionBase.setVisible, QuestionBase.setRenderWidth, QuestionBase.setIndent,
      QuestionBase.setRightIndent, QuestionBase.setStartWithNewLine,
      QuestionBase.setVisibleIndex]

/-- C6 counterexample: on a freshly constructed base element `isReadOnly`
returns `true`, not `false` as the claim states. -/
theorem fresh_isReadOnly_not_false :
    ¬ (QuestionBase.isReadOnly (construct "q6c" 100).1 = false) := by
  simp [QuestionBase.isReadOnly]

/-- C6 amended: on a freshly constructed base element the base-level query
operations return fixed answers — empty list, `false`, `0` — except
`isReadOnly`, which returns `true`. -/
theorem fresh_base_level_answers (name : String) (c : Nat) (b : Bool) :
    QuestionBase.getAllErrors (construct name c).1 = [] ∧
    QuestionBase.hasErrors (construct name c).1 b = false ∧
    QuestionBase.currentErrorCount (construct name c).1 = 0 ∧
    QuestionBase.hasTitle (construct name c).1 = false ∧
    QuestionBase.hasDescription (construct name c).1 = false ∧
    QuestionBase.hasInput (construct name c).1 = false ∧
    QuestionBase.hasComment (construct name c).1 = false ∧
    QuestionBase.isReadOnly (construct name c).1 = true :=
  ⟨rfl, rfl, rfl, rfl, rfl, rfl, rfl, rfl⟩

/-- C10: `isVisible` is true exactly when `visible` is true or an attached
container reports design mode; with no container, `isVisible` equals
`visible`. -/
theorem isVisible_iff (q : QuestionBase) :
    (q.isVisible = true ↔
      q.visible = true ∨ ∃ sv, q.survey = some sv ∧ sv.isDesignMode = true) ∧
    (q.survey = none → q.isVisible = q.visible) := by
  constructor
  · cases hsv : q.survey with
    | none => simp [QuestionBase.isVisible, QuestionBase.isDesignMode, hsv]
    | some sv => simp [QuestionBase.isVisible, QuestionBase.isDesignMode, hsv]
  · intro h
    simp [QuestionBase.isVisible, QuestionBase.isDesignMode, h]

/-- C10 witness: a freshly constructed element has no container, and its
`isVisible` equals its `visible`. -/
theorem isVisible_iff_witness :
    QuestionBase.isVisible (construct "q10w" 100).1 =
      QuestionBase.visible (construct "q10w" 100).1 :=
  (isVisible_iff (construct "q10w" 100).1).2 rfl

/-- C5 counterexample: on an element with every callback subscribed, setting
`width` to a value different from the current one stores the value but fires
no hook at all — the `width` setter has no dedicated change hook, contrary
to the claim. -/
theorem width_set_fires_no_hook_counterexample :
    "100px" ≠ sampleWired.width ∧
    QuestionBase.setWidth sampleWired "100px" =
      ({ sampleWired with propWidth := some "100px" }, []) := by
  exact ⟨by decide, rfl⟩

/-- C5 amended: setting `renderWidth` fires its dedicated hook exactly when
the new value differs from the current one; setting `width` stores the value
but never fires any hook. -/
theorem renderWidth_hook_gated_width_silent (q : QuestionBase) (val : String)
    (h : q.hasRenderWidthChangedCallback = true) :
    (q.setRenderWidth val).2 =
      (if val = q.renderWidth then [] else [Effect.renderWidthChanged]) ∧
    (q.setWidth val).2 = [] ∧
    (q.setWidth val).1.width = val := by
  refine ⟨?_, rfl, by simp [QuestionBase.setWidth, QuestionBase.width]⟩
  by_cases hv : val = q.renderWidth
  · simp [QuestionBase.setRenderWidth, hv]
  · simp [QuestionBase.setRenderWidth, hv, fireCallback, h]

/-- C5 amended witness: concrete instance on a wired element. -/
theorem renderWidth_hook_gated_width_silent_witness :
    ((QuestionBase.setRenderWidth sampleWired "50%").2 =
      (if "50%" = sampleWired.renderWidth then [] else [Effect.renderWidthChanged])) ∧
    (QuestionBase.setWidth sampleWired "50%").2 = [] ∧
    (QuestionBase.setWidth sampleWired "50%").1.width = "50%" :=
  renderWidth_hook_gated_width_silent sampleWired "50%" rfl

/-- C3: assigning `visible` a value different from the current one fires the
visibility-change hook, then the row-visibility-change hook, and then — only
when a container is attached — the container notification carrying the new
boolean; with no container only the two hooks fire. -/
theorem visible_setter_effect_order (q : QuestionBase) (val : Bool)
    (h : val ≠ q.visible)
    (h1 : q.hasVisibilityChangedCallback = true)
    (h2 : q.hasRowVisibilityChangedCallback = true) :
    (q.setVisible val).2 =
      [Effect.visibilityChanged, Effect.rowVisibilityChanged] ++
        (if q.survey.isSome then [Effect.questionVisibilityChanged val] else []) := by
  rw [setVisible_eq_of_ne q val h]
  simp [fireCallback, h1, h2]

/-- C3 witness: concrete instance on a wired element with no container. -/
theorem visible_setter_effect_order_witness :
    (sampleWired.setVisible false).2 =
      [Effect.visibilityChanged, Effect.rowVisibilityChanged] ++
        (if sampleWired.survey.isSome then [Effect.questionVisibilityChanged false]
         else []) :=
  visible_setter_effect_order sampleWired false (by decide) rfl rfl

/-- C1: with `visibleIf = "{x} = 1"`, an evaluator answering `true` on the
given values, and `visible` currently false, `runCondition` sets `visible`
to true through the normal setter, firing exactly the visibility-change hook
and the row-visibility-change hook (plus the container notification when one
is attached); running it again with the same values changes nothing and
fires nothing. -/
theorem runCondition_sets_visible_then_idempotent {α : Type}
    (run : String → α → Bool) (values : α) (q : QuestionBase)
    (hIf : q.visibleIf = "{x} = 1")
    (hRun : run "{x} = 1" values = true)
    (hVis : q.visible = false)
    (h1 : q.hasVisibilityChangedCallback = true)
    (h2 : q.hasRowVisibilityChangedCallback = true) :
    (q.runCondition run values).1.visible = true ∧
    (q.runCondition run values).2 =
      [Effect.visibilityChanged, Effect.rowVisibilityChanged] ++
        (if q.survey.isSome then [Effect.questionVisibilityChanged true] else []) ∧
    (q.runCondition run values).1.runCondition run values =
      ((q.runCondition run values).1, []) := by
  obtain ⟨nm, pv, pvi, pid, pw, prw, pin, pri, psw, pvx, crun, icw, cwv, sv,
    cb1, cb2, cb3, cb4, cb5⟩ := q
  simp only [QuestionBase.visibleIf, QuestionBase.visible] at hIf hVis
  simp at h1 h2
  subst h1
  subst h2
  cases pvi with
  | none => simp at hIf
  | some e =>
    simp at hIf
    subst hIf
    cases pv with
    | none => simp at hVis
    | some b =>
      simp at hVis
      subst hVis
      cases crun <;> cases sv <;>
        simp [QuestionBase.runCondition, QuestionBase.setVisible,
          QuestionBase.visible, QuestionBase.visibleIf, fireCallback, hRun]

/-- C1 witness: the concrete scenario on the wired invisible element with
the spec-modelled evaluator and `values = {x: 1}`. -/
theorem runCondition_sets_visible_then_idempotent_witness :
    (QuestionBase.runCondition specEvalRun [("x", 1)] sampleConditional).1.visible
        = true ∧
    (QuestionBase.runCondition specEvalRun [("x", 1)] sampleConditional).2 =
      [Effect.visibilityChanged, Effect.rowVisibilityChanged] ++
        (if sampleConditional.survey.isSome
         then [Effect.questionVisibilityChanged true] else []) ∧
    QuestionBase.runCondition specEvalRun [("x", 1)]
        (QuestionBase.runCondition specEvalRun [("x", 1)] sampleConditional).1 =
      ((QuestionBase.runCondition specEvalRun [("x", 1)] sampleConditional).1, []) :=
  runCondition_sets_visible_then_idempotent specEvalRun [("x", 1)]
    sampleConditional rfl (by decide) rfl rfl rfl

/-- Helper: an overwriting store is observable at its key. -/
theorem alGet_alSet (l : List (String × String)) (k v : String) :
    alGet (alSet l k v) k = some v := by
  induction l with
  | nil => simp [alSet, alGet]
  | cons hd tl ih =>
    obtain ⟨k1, v1⟩ := hd
    by_cases h : k1 = k
    · simp [alSet, alGet, h]
    · simp only [alSet, if_neg h]
      simpa [alGet, List.find?_cons, h] using ih

/-- C7: with a per-type override that is the one-entry mapping `{k: v}` and
no consumer customization (no container attached), `cssClasses` yields `v`
at key `k`, overwriting whatever the generic style group contributed — the
later layering step wins. -/
theorem cssClasses_perType_override_wins (sheet : SurveyCssSheet)
    (customize : CssClassesResult → CssClassesResult) (q : QuestionBase)
    (k v : String)
    (hOv : (sheet.perType.find? (fun kv => kv.1 == "questionbase")).map
        (fun kv => kv.2) = some (CssEntry.map [(k, v)]))
    (hSv : q.survey = none) :
    alGet (q.cssClasses sheet customize).top k = some v := by
  simp [QuestionBase.cssClasses, updateCssClasses, QuestionBase.getType, hOv, hSv]
  exact alGet_alSet _ _ _

/-- C7 witness: the concrete sheet whose generic group sets
`root = "generic-root"` and whose per-type override sets
`root = "custom-root"`; the override wins. -/
theorem cssClasses_perType_override_wins_witness :
    alGet (QuestionBase.cssClasses sampleSheet (fun c => c)
        (construct "q7w" 100).1).top "root" = some "custom-root" :=
  cssClasses_perType_override_wins sampleSheet (fun c => c)
    (construct "q7w" 100).1 "root" "custom-root" rfl rfl

/-- Helper: with a non-empty `visibleIf`, `runCondition` caches the evaluator
bound to the current expression text and assigns the evaluation result
through the `visible` setter. -/
theorem runCondition_eq {α : Type} (run : String → α → Bool) (values : α)
    (q : QuestionBase) (h : ¬ q.visibleIf = "") :
    q.runCondition run values =
      QuestionBase.setVisible
        { q with conditionRunner := some (ConditionRunner.mk q.visibleIf) }
        (run q.visibleIf values) := by
  cases hc : q.conditionRunner with
  | none => simp [QuestionBase.runCondition, h, hc]
  | some c => cases c; simp [QuestionBase.runCondition, h, hc]

/-- Helper: once the lookup was requested, a `customWidget` read is pure. -/
theorem customWidget_of_requested (resolve : Option QuestionCustomWidget)
    (q : QuestionBase) (h : q.isCustomWidgetRequested = true) :
    q.customWidget resolve = (q.customWidgetValue, q, []) := by
  simp [QuestionBase.customWidget, h]

/-- Helper: repeated reads after the lookup was requested do nothing. -/
theorem readCustomWidgetN_of_requested (resolve : Option QuestionCustomWidget)
    (n : Nat) (q : QuestionBase) (h : q.isCustomWidgetRequested = true) :
    q.readCustomWidgetN resolve n = (q, []) := by
  induction n with
  | zero => rfl
  | succ n ih =>
    simp [QuestionBase.readCustomWidgetN, customWidget_of_requested resolve q h, ih]

/-- Helper: a read with the lazy guard closed is pure. -/
theorem customWidget_guard_false (resolve : Option QuestionCustomWidget)
    (q : QuestionBase)
    (h : (!q.isCustomWidgetRequested && q.customWidgetValue.isNone) = false) :
    q.customWidget resolve = (q.customWidgetValue, q, []) := by
  simp [QuestionBase.customWidget, h]

/-- Helper: a read with the lazy guard open marks the element requested,
invokes the resolver once and caches its result. -/
theorem customWidget_guard_true (resolve : Option QuestionCustomWidget)
    (q : QuestionBase)
    (h : (!q.isCustomWidgetRequested && q.customWidgetValue.isNone) = true) :
    q.customWidget resolve =
      (resolve,
        { q with isCustomWidgetRequested := true, customWidgetValue := resolve },
        [Effect.resolverInvoked]) := by
  simp [QuestionBase.customWidget, QuestionBase.updateCustomWidget, h]

/-- Helper frame lemma: every public operation leaves the stored `id`
untouched, and never resets the custom-widget `requested` flag. -/
theorem apply_frame (op : Op) (q : QuestionBase) :
    ((op.apply q).1).propId = q.propId ∧
    (q.isCustomWidgetRequested = true →
      ((op.apply q).1).isCustomWidgetRequested = true) := by
  cases op with
  | setVisible v =>
    by_cases hc : v = q.visible <;> simp [Op.apply, QuestionBase.setVisible, hc]
  | setVisibleIf v => simp [Op.apply, QuestionBase.setVisibleIf]
  | setWidth v => simp [Op.apply, QuestionBase.setWidth]
  | setRenderWidth v =>
    by_cases hc : v = q.renderWidth <;>
      simp [Op.apply, QuestionBase.setRenderWidth, hc]
  | setIndent v =>
    by_cases hc : v = q.indent <;> simp [Op.apply, QuestionBase.setIndent, hc]
  | setRightIndent v =>
    by_cases hc : v = q.rightIndent <;>
      simp [Op.apply, QuestionBase.setRightIndent, hc]
  | setStartWithNewLine v =>
    by_cases hc : q.startWithNewLine = v <;>
      simp [Op.apply, QuestionBase.setStartWithNewLine, hc]
  | setVisibleIndex v =>
    by_cases hc : q.visibleIndex = v <;>
      simp [Op.apply, QuestionBase.setVisibleIndex, hc]
  | runCondition run values =>
    by_cases hc : q.visibleIf = ""
    · simp [Op.apply, QuestionBase.runCondition, hc]
    · have heq := runCondition_eq run values q hc
      by_cases hv : run q.visibleIf values =
          ({ q with conditionRunner := some (ConditionRunner.mk q.visibleIf) } :
            QuestionBase).visible
      · simp [Op.apply, heq, setVisible_eq_of_eq _ _ hv]
      · simp [Op.apply, heq, setVisible_eq_of_ne _ _ hv]
  | readCustomWidget resolve =>
    cases hg : (!q.isCustomWidgetRequested && q.customWidgetValue.isNone) with
    | false => simp [Op.apply, customWidget_guard_false resolve q hg]
    | true => simp [Op.apply, customWidget_guard_true resolve q hg]
  | updateCustomWidget resolve => simp [Op.apply, QuestionBase.updateCustomWidget]

/-- Helper: any number of consecutive `customWidget` reads invokes the
resolver at most once in total. -/
theorem readCustomWidgetN_count (resolve : Option QuestionCustomWidget)
    (n : Nat) (q : QuestionBase) :
    (q.readCustomWidgetN resolve n).2.count Effect.resolverInvoked ≤ 1 := by
  induction n with
  | zero => simp [QuestionBase.readCustomWidgetN]
  | succ n ih =>
    cases hg : (!q.isCustomWidgetRequested && q.customWidgetValue.isNone) with
    | false =>
      simpa [QuestionBase.readCustomWidgetN,
        customWidget_guard_false resolve q hg] using ih
    | true =>
      have hreq :
          ({ q with
              isCustomWidgetRequested := true
              customWidgetValue := resolve } :
            QuestionBase).isCustomWidgetRequested = true := rfl
      simp [QuestionBase.readCustomWidgetN, customWidget_guard_true resolve q hg,
        readCustomWidgetN_of_requested resolve n _ hreq]

/-- C8: reads of `customWidget` without an intervening `updateCustomWidget()`
invoke the external resolver at most once in total (also when the lookup
found no match); `updateCustomWidget()` unconditionally re-invokes the
resolver and replaces the cache; and the `requested` flag, once true, stays
true under every operation. -/
theorem customWidget_resolver_at_most_once (q q2 : QuestionBase)
    (resolve : Option QuestionCustomWidget) (n : Nat) (op : Op)
    (h : q2.isCustomWidgetRequested = true) :
    ((q.readCustomWidgetN resolve n).2.count Effect.resolverInvoked ≤ 1) ∧
    q.updateCustomWidget resolve =
      ({ q with customWidgetValue := resolve }, [Effect.resolverInvoked]) ∧
    ((op.apply q2).1).isCustomWidgetRequested = true :=
  ⟨readCustomWidgetN_count resolve n q, rfl, (apply_frame op q2).2 h⟩

/-- C8 witness: three consecutive reads on a fresh wired element with a
resolver that finds no match, one forced update, and one operation on an
already-requested element. -/
theorem customWidget_resolver_at_most_once_witness :
    ((sampleWired.readCustomWidgetN none 3).2.count Effect.resolverInvoked ≤ 1) ∧
    QuestionBase.updateCustomWidget none sampleWired =
      ({ sampleWired with customWidgetValue := none }, [Effect.resolverInvoked]) ∧
    ((Op.apply (Op.setWidth "10px") sampleRequested).1).isCustomWidgetRequested
      = true :=
  customWidget_resolver_at_most_once sampleWired sampleRequested none 3
    (Op.setWidth "10px") rfl

/-- Helper: `Nat.toDigitsCore` accumulates: the produced digits do not
depend on the accumulator, which is appended on the right. -/
theorem toDigitsCore_acc (fuel : Nat) :
    ∀ (n : Nat) (ds : List Char),
      Nat.toDigitsCore 10 fuel n ds = Nat.toDigitsCore 10 fuel n [] ++ ds := by
  induction fuel with
  | zero => intro n ds; simp [Nat.toDigitsCore]
  | succ fuel ih =>
    intro n ds
    simp only [Nat.toDigitsCore]
    by_cases h : n / 10 = 0
    · simp [h]
    · simp only [if_neg h]
      rw [ih (n / 10) (Nat.digitChar (n % 10) :: ds),
        ih (n / 10) [Nat.digitChar (n % 10)]]
      simp

/-- Helper: decoding inverts `Nat.digitChar` on digits. -/
theorem decodeDigit_digitChar : ∀ m, m < 10 → decodeDigit (Nat.digitChar m) = m := by
  decide

/-- Helper: appending one digit character multiplies the value by ten and
adds the digit. -/
theorem digitsVal_append (l : List Char) (c : Char) :
    digitsVal (l ++ [c]) = 10 * digitsVal l + decodeDigit c := by
  simp [digitsVal, List.foldl_append]

/-- Helper: with enough fuel, decoding the digits of `Nat.toDigitsCore`
recovers the input. -/
theorem digitsVal_toDigitsCore (fuel : Nat) :
    ∀ n, n < fuel → digitsVal (Nat.toDigitsCore 10 fuel n []) = n := by
  induction fuel with
  | zero => intro n h; exact absurd h (Nat.not_lt_zero n)
  | succ fuel ih =>
    intro n h
    simp only [Nat.toDigitsCore]
    by_cases h0 : n / 10 = 0
    · simp [h0, digitsVal, decodeDigit_digitChar (n % 10) (by omega)]
      omega
    · simp only [if_neg h0]
      rw [toDigitsCore_acc fuel (n / 10) [Nat.digitChar (n % 10)],
        digitsVal_append, ih (n / 10) (by omega),
        decodeDigit_digitChar (n % 10) (by omega)]
      omega

/-- Helper: the decimal string of a natural number determines it. -/
theorem nat_repr_inj {m n : Nat} (h : Nat.repr m = Nat.repr n) : m = n := by
  have hd : Nat.toDigitsCore 10 (m + 1) m [] = Nat.toDigitsCore 10 (n + 1) n [] := by
    have hdata := congrArg String.data h
    simpa [Nat.repr, Nat.toDigits, List.asString] using hdata
  have hm := digitsVal_toDigitsCore (m + 1) m (Nat.lt_succ_self m)
  have hn := digitsVal_toDigitsCore (n + 1) n (Nat.lt_succ_self n)
  rw [← hm, ← hn, hd]

/-- C9: an element's id is assigned at construction as the non-empty string
`"sq_" + counter`, the static counter strictly increases, ids of elements
constructed at distinct counter values are distinct, and no later operation
ever changes the stored id. -/
theorem id_unique_and_immutable (name1 name2 : String) (c1 c2 : Nat)
    (op : Op) (q : QuestionBase) (h : c1 ≠ c2) :
    (construct name1 c1).1.id = some ("sq_" ++ Nat.repr c1) ∧
    (construct name1 c1).2 = c1 + 1 ∧
    ("sq_" ++ Nat.repr c1) ≠ "" ∧
    (construct name1 c1).1.id ≠ (construct name2 c2).1.id ∧
    ((op.apply q).1).id = q.id := by
  refine ⟨rfl, rfl, ?_, ?_, (apply_frame op q).1⟩
  · intro hcon
    have hdata := congrArg String.data hcon
    simp [String.data_append] at hdata
  · intro hcon
    have hs : ("sq_" ++ Nat.repr c1) = ("sq_" ++ Nat.repr c2) :=
      Option.some.inj hcon
    have hdata := congrArg String.data hs
    rw [String.data_append, String.data_append] at hdata
    have hr : (Nat.repr c1).data = (Nat.repr c2).data :=
      List.append_cancel_left hdata
    exact h (nat_repr_inj (String.ext hr))

/-- C9 witness: concrete instance — two constructions at counters 100 and
101 give distinct ids, and an operation leaves the id unchanged. -/
theorem id_unique_and_immutable_witness :
    (construct "a" 100).1.id = some ("sq_" ++ Nat.repr 100) ∧
    (construct "a" 100).2 = 100 + 1 ∧
    ("sq_" ++ Nat.repr 100) ≠ "" ∧
    (construct "a" 100).1.id ≠ (construct "b" 101).1.id ∧
    ((Op.apply (Op.setVisibleIf "{x} = 1") sampleWired).1).id = sampleWired.id :=
  id_unique_and_immutable "a" "b" 100 101 (Op.setVisibleIf "{x} = 1")
    sampleWired (by decide)

end SurveyJS
